import Mathlib

/-!
# Shallow embedding of `src/main/default/lwc/cometD/cometD.js`

The module under verification exports a single function `initCometD` that
validates a configuration record, loads the bundled CometD script at most once
(caching the load promise in the module-level variable `scriptPromise`),
fetches an authentication context from the Apex call `getContext`, configures a
CometD instance, performs a handshake, subscribes to the requested channel and
resolves with a handle record `{cometd, subscription, disconnect}`.

The embedding models:
* JavaScript values relevant to the module as `JSVal` (truthiness and the
  `typeof f === 'function'` test are the only observations the code makes);
* the module-level mutable `scriptPromise` as an explicit state of type
  `Option Nat` (a promise identity, `none` before the first load);
* the asynchronous run of one `initCometD` call as a pure function from the
  configuration, an environment (resolutions of the external promises, the
  `window` globals, and the handshake status) and the module state to an
  `InitResult`: the settled outcome of the returned promise, the new module
  state, and the ordered trace of calls made into the host and the third-party
  client;
* the `disconnect` closure of the resolved handle as `runDisconnect`, with an
  explicit exception-propagating composition (`seqD`, `tryIgnore`) mirroring
  the two `try { … } catch (e) { /* ignore */ }` blocks in the source.

Object identities (promises, CometD instances, subscriptions) are modelled as
natural numbers drawn from a fresh counter; server context fields are modelled
as `Option String` (`none` for an absent/undefined field, `""` possible), which
is exactly the information the code's truthiness tests and template literals
consume.
-/

namespace SfCometD

/-- A JavaScript value, as far as the module observes one: the code only tests
truthiness (`!context`, `!channel`, `ctx.apiVersion || …`, `if (subscription)`)
and `typeof onMessage === 'function'`, and otherwise passes values through. -/
inductive JSVal where
  | undefined
  | null
  | bool (b : Bool)
  | num (n : Int)
  | str (s : String)
  | obj (id : Nat)
  | func (id : Nat)
deriving DecidableEq, Repr

/-- JavaScript truthiness of a `JSVal`. -/
def truthy : JSVal → Bool
  | .undefined => false
  | .null => false
  | .bool b => b
  | .num n => n != 0
  | .str s => s != ""
  | .obj _ => true
  | .func _ => true

/-- The `typeof v === 'function'` test. -/
def isFunction : JSVal → Bool
  | .func _ => true
  | _ => false

/-- The destructured parameter of `initCometD`: the configuration record
`{context, channel, onMessage, logLevel = 'debug', websocketEnabled = false}`.
Absent properties destructure to `undefined`. -/
structure Config where
  context : JSVal := .undefined
  channel : JSVal := .undefined
  onMessage : JSVal := .undefined
  logLevel : JSVal := .undefined
  websocketEnabled : JSVal := .undefined
deriving DecidableEq, Repr

/-- The `logLevel` binding after destructuring: the default `'debug'` applies
exactly when the property is `undefined`. -/
def effLogLevel (cfg : Config) : JSVal :=
  if cfg.logLevel = .undefined then .str "debug" else cfg.logLevel

/-- The `websocketEnabled` binding after destructuring: the default `false`
applies exactly when the property is `undefined`. -/
def effWebsocketEnabled (cfg : Config) : JSVal :=
  if cfg.websocketEnabled = .undefined then .bool false else cfg.websocketEnabled

/-- The message handler passed to `cometd.subscribe`: either the caller's
`onMessage` value (when it is a function) or the no-op arrow function the
source substitutes. -/
inductive Handler where
  | fromConfig (v : JSVal)
  | noop
deriving DecidableEq, Repr

/-- `const handler = typeof onMessage === 'function' ? onMessage : () => {}` -/
def handlerOf (onMessage : JSVal) : Handler :=
  if isFunction onMessage then .fromConfig onMessage else .noop

/-- Whether a `Handler` denotes a JavaScript function value: the source only
ever wraps either a function-typed `onMessage` or an arrow function. -/
def Handler.isFunctionValue : Handler → Bool
  | .fromConfig v => isFunction v
  | .noop => true

/-- The record returned by the Apex call `getContext` (the server-side provider
returns the two fields `sessionId` and `apiVersion`); `none` models an
absent/undefined field. -/
structure ServerCtx where
  sessionId : Option String
  apiVersion : Option String
deriving DecidableEq, Repr

/-- Truthiness of an optional string field (absent and `""` are falsy). -/
def optTruthy : Option String → Bool
  | some s => s != ""
  | none => false

/-- `ctx?.sessionId` where `ctx` itself may be nullish. -/
def sessionIdOf : Option ServerCtx → Option String
  | some c => c.sessionId
  | none => none

/-- Whether `ctx?.sessionId` is truthy. -/
def sessionTruthy (ctx : Option ServerCtx) : Bool :=
  optTruthy (sessionIdOf ctx)

/-- `a || '65.0'` applied to the `apiVersion` field. -/
def apiVersionOr (a : Option String) : String :=
  match a with
  | some s => if s = "" then "65.0" else s
  | none => "65.0"

/-- `ctx.apiVersion || '65.0'` lifted through a possibly nullish `ctx`
(the code only evaluates it when `ctx` is non-nullish). -/
def apiVersionOf : Option ServerCtx → String
  | some c => apiVersionOr c.apiVersion
  | none => "65.0"

/-- The argument the third-party client passes to the handshake callback:
either a nullish value or a status object with a `successful` field. -/
inductive Status where
  | nullish
  | obj (successful : Bool) (id : Nat)
deriving DecidableEq, Repr

/-- `status?.successful` as a boolean (`!status?.successful` is its negation). -/
def Status.isSuccessful : Status → Bool
  | .nullish => false
  | .obj s _ => s

/-- The environment one call to `initCometD` runs in: how the two external
promises settle, whether the loaded script actually installed
`window.org.cometd.CometD`, the `window.location` globals interpolated into
the endpoint URL, and the status delivered to the handshake callback.
External rejection reasons are opaque identities. -/
structure Env where
  scriptLoad : Except Nat Unit
  contextFetch : Except Nat (Option ServerCtx)
  libraryPresent : Bool
  protocol : String
  hostname : String
  handshakeStatus : Status
deriving Repr

/-- The argument object of `cometd.configure`. -/
structure CometdConfig where
  url : String
  authorizationHeader : String
  appendMessageTypeToURL : Bool
  logLevel : JSVal
deriving DecidableEq, Repr

/-- One observable call made by `initCometD` into the host platform or the
third-party client, in program order. -/
inductive Event where
  | loadScriptCall
  | getContextCall
  | newCometD
  | configureCall (c : CometdConfig)
  | setWebsocketEnabled (v : JSVal)
  | handshakeCall
  | subscribeCall (channel : JSVal) (handler : Handler)
deriving DecidableEq, Repr

/-- Whether an event is a `cometd.subscribe` call. -/
def Event.isSubscribe : Event → Bool
  | .loadScriptCall => false
  | .getContextCall => false
  | .newCometD => false
  | .configureCall _ => false
  | .setWebsocketEnabled _ => false
  | .handshakeCall => false
  | .subscribeCall _ _ => true

/-- A property of the resolved handle record: a plain value (an object
identity) or the `disconnect` arrow function, which captures the
`subscription` variable (`some` a subscription identity when the variable is
truthy). -/
inductive HandleField where
  | value (id : Nat)
  | closure (capturedSubscription : Option Nat)
deriving DecidableEq, Repr

/-- Whether a handle property is a function-valued member (a method). -/
def HandleField.isMethod : HandleField → Bool
  | .closure _ => true
  | .value _ => false

/-- The property names of a handle record, in literal order. -/
def recordProps (r : List (String × HandleField)) : List String :=
  r.map Prod.fst

/-- The names of the function-valued properties of a handle record. -/
def recordMethods (r : List (String × HandleField)) : List String :=
  (r.filter fun p => p.2.isMethod).map Prod.fst

/-- Modelled from the spec: the property names of the handle the spec
describes, `{connection, subscription, disconnect}`. -/
def specHandleProps : List String :=
  ["connection", "subscription", "disconnect"]

/-- Modelled from the spec: the two methods the spec says the handle exposes,
`unsubscribe` and `disconnect`. -/
def specHandleMethods : List String :=
  ["unsubscribe", "disconnect"]

/-- A value the promise returned by `initCometD` can reject with: an `Error`
with the given message, the handshake status forwarded by `reject(status)`, or
an opaque rejection propagated from `loadScript`/`getContext`. -/
inductive RejectValue where
  | error (msg : String)
  | status (s : Status)
  | external (id : Nat)
deriving DecidableEq, Repr

/-- The settled outcome of the promise returned by `initCometD`. -/
inductive Outcome where
  | rejected (v : RejectValue)
  | resolved (record : List (String × HandleField))
deriving DecidableEq, Repr

/-- The module-level `let scriptPromise;` — `none` until the first
`loadScript` call, then the identity of the stored promise. -/
abbrev ModuleState := Option Nat

/-- `loadCometd(context)`: returns the promise to wait on, the new module
state, and the trace of host calls (a `loadScript` call exactly when the cache
was empty). -/
def loadCometd (st : ModuleState) (fresh : Nat) : Nat × ModuleState × List Event :=
  match st with
  | some p => (p, some p, [])
  | none => (fresh, some fresh, [.loadScriptCall])

/-- The result of one run of `initCometD`: the outcome of the returned
promise, the module state after the call, and the ordered call trace. -/
structure InitResult where
  outcome : Outcome
  state : ModuleState
  trace : List Event
deriving DecidableEq, Repr

/-- The module state once `loadCometd` has been consulted. -/
def afterLoadState (st : ModuleState) (fresh : Nat) : ModuleState :=
  (loadCometd st fresh).2.1

/-- The host calls made by `Promise.all([loadCometd(context), getContext()])`:
a `loadScript` call when the cache was empty, then the `getContext` call. -/
def preEvents (st : ModuleState) (fresh : Nat) : List Event :=
  (loadCometd st fresh).2.2 ++ [Event.getContextCall]

/-- The object passed to `cometd.configure`: the endpoint URL interpolated
from `window.location` and `ctx.apiVersion || '65.0'`, the `Authorization`
request header built from `ctx.sessionId`, `appendMessageTypeToURL: false`,
and the destructured `logLevel`. -/
def configOf (cfg : Config) (env : Env) (ctx : Option ServerCtx) : CometdConfig :=
  ⟨env.protocol ++ "//" ++ env.hostname ++ "/cometd/" ++ apiVersionOf ctx ++ "/",
   "OAuth " ++ (sessionIdOf ctx).getD "",
   false,
   effLogLevel cfg⟩

/-- The client calls made between the context checks and the handshake
callback: construction, `configure`, the `websocketEnabled` assignment, and
`handshake`. -/
def coreEvents (cfg : Config) (env : Env) (ctx : Option ServerCtx) : List Event :=
  [Event.newCometD, Event.configureCall (configOf cfg env ctx),
   Event.setWebsocketEnabled (effWebsocketEnabled cfg), Event.handshakeCall]

/-- The object literal `initCometD` resolves with:
`{cometd, subscription, disconnect: () => {…}}`, the `disconnect` arrow
function capturing the `subscription` variable. -/
def handleRecord (fresh : Nat) : List (String × HandleField) :=
  [("cometd", .value (fresh + 1)),
   ("subscription", .value (fresh + 2)),
   ("disconnect", .closure (some (fresh + 2)))]

/-- One run of `initCometD(cfg)` in environment `env` from module state `st`,
with `fresh` seeding new object identities (the script promise, the CometD
instance `fresh + 1`, and the subscription `fresh + 2`). Mirrors the source
line by line: the two validation guards, `Promise.all([loadCometd(context),
getContext()])`, the `window.org.cometd.CometD` presence check, the
`ctx?.sessionId` check, `configure`, the `websocketEnabled` assignment, the
handshake, and on success the subscription and the resolved handle record. -/
def initCometD (cfg : Config) (env : Env) (st : ModuleState) (fresh : Nat) : InitResult :=
  if truthy cfg.context = false then
    ⟨.rejected (.error "CometD init requires an LWC context."), st, []⟩
  else if truthy cfg.channel = false then
    ⟨.rejected (.error "CometD init requires a channel."), st, []⟩
  else
    match env.scriptLoad with
    | .error e => ⟨.rejected (.external e), afterLoadState st fresh, preEvents st fresh⟩
    | .ok _ =>
      match env.contextFetch with
      | .error e => ⟨.rejected (.external e), afterLoadState st fresh, preEvents st fresh⟩
      | .ok ctx =>
        if env.libraryPresent = false then
          ⟨.rejected (.error "CometD library not found on window."),
           afterLoadState st fresh, preEvents st fresh⟩
        else if sessionTruthy ctx = false then
          ⟨.rejected (.error "CometD init could not resolve session id."),
           afterLoadState st fresh, preEvents st fresh⟩
        else if env.handshakeStatus.isSuccessful = false then
          ⟨.rejected (.status env.handshakeStatus),
           afterLoadState st fresh, preEvents st fresh ++ coreEvents cfg env ctx⟩
        else
          ⟨.resolved (handleRecord fresh),
           afterLoadState st fresh,
           preEvents st fresh ++ coreEvents cfg env ctx
             ++ [Event.subscribeCall cfg.channel (handlerOf cfg.onMessage)]⟩

/-- How the third-party client behaves during a `disconnect` call: whether
`cometd.unsubscribe` and `cometd.disconnect` throw. -/
structure ClientBehavior where
  unsubscribeThrows : Bool
  disconnectThrows : Bool
deriving DecidableEq, Repr

/-- A call the `disconnect` closure makes into the third-party client. -/
inductive DiscEvent where
  | unsubscribeCall (sub : Nat)
  | disconnectCall (arg : Bool)
deriving DecidableEq, Repr

/-- Result of a statement inside the closure: whether an exception escaped,
and the client calls attempted. -/
abbrev DiscResult := Except Unit Unit × List DiscEvent

/-- One call into the third-party client: it is attempted (recorded in the
trace) and may throw. -/
def clientCall (throws : Bool) (ev : DiscEvent) : DiscResult :=
  (if throws then .error () else .ok (), [ev])

/-- `try { body } catch (e) { /* ignore */ }`: any exception is swallowed. -/
def tryIgnore (body : DiscResult) : DiscResult :=
  (.ok (), body.2)

/-- Statement sequencing: the second statement runs only when the first did
not throw; an escaping exception propagates. -/
def seqD (a b : DiscResult) : DiscResult :=
  match a.1 with
  | .error e => (.error e, a.2)
  | .ok _ => (b.1, a.2 ++ b.2)

/-- The body of the first `try` block: `if (subscription)
{ cometd.unsubscribe(subscription); }`. -/
def unsubscribeStep (sub : Option Nat) (b : ClientBehavior) : DiscResult :=
  match sub with
  | some s => clientCall b.unsubscribeThrows (.unsubscribeCall s)
  | none => (.ok (), [])

/-- The `disconnect` arrow function of the resolved handle, run against a
client with behaviour `b`: the guarded `unsubscribe` in a `try`/`catch`,
then `cometd.disconnect(true)` in a second `try`/`catch`. -/
def runDisconnect (sub : Option Nat) (b : ClientBehavior) : DiscResult :=
  seqD (tryIgnore (unsubscribeStep sub b))
       (tryIgnore (clientCall b.disconnectThrows (.disconnectCall true)))

/-- A sequence of `initCometD` calls in one module lifetime, threading the
module-level `scriptPromise` state; returns the final state and the
concatenated trace. -/
def runCalls (st : ModuleState) (fresh : Nat) : List (Config × Env) → ModuleState × List Event
  | [] => (st, [])
  | (cfg, env) :: rest =>
    let r := initCometD cfg env st fresh
    let rec' := runCalls r.state (fresh + 3) rest
    (rec'.1, r.trace ++ rec'.2)

/-- Whether an event is the `loadScript` host call. -/
def Event.isLoadScript : Event → Bool
  | .loadScriptCall => true
  | .getContextCall => false
  | .newCometD => false
  | .configureCall _ => false
  | .setWebsocketEnabled _ => false
  | .handshakeCall => false
  | .subscribeCall _ _ => false

/-- Whether an event is the construction of a CometD instance. -/
def Event.isNewCometD : Event → Bool
  | .loadScriptCall => false
  | .getContextCall => false
  | .newCometD => true
  | .configureCall _ => false
  | .setWebsocketEnabled _ => false
  | .handshakeCall => false
  | .subscribeCall _ _ => false

/-- Whether an event is a `cometd.handshake` call. -/
def Event.isHandshake : Event → Bool
  | .loadScriptCall => false
  | .getContextCall => false
  | .newCometD => false
  | .configureCall _ => false
  | .setWebsocketEnabled _ => false
  | .handshakeCall => true
  | .subscribeCall _ _ => false

/-- A sample configuration for concrete runs: a truthy component context, a
platform-event channel and a function-typed `onMessage`. -/
def sampleCfg : Config :=
  { context := .obj 0, channel := .str "/event/Sample__e", onMessage := .func 5 }

/-- A sample server context for concrete runs. -/
def sampleCtx : Option ServerCtx := some ⟨some "sid123", some "60.0"⟩

/-- A sample environment for concrete runs: both external promises resolve,
the script installed the library, and the handshake succeeds. -/
def sampleEnv : Env :=
  { scriptLoad := .ok (), contextFetch := .ok sampleCtx,
    libraryPresent := true, protocol := "https:", hostname := "h.example.com",
    handshakeStatus := .obj true 9 }

/-- A sample environment whose handshake callback receives a nullish status. -/
def failedHandshakeEnv : Env :=
  { sampleEnv with handshakeStatus := .nullish }

/-- A sample configuration whose `onMessage` is present but not a function. -/
def sampleCfgNoHandler : Config :=
  { sampleCfg with onMessage := .str "not-a-function" }

/-- Exhaustive case analysis of one `initCometD` run: exactly one of the
eight control-flow branches of the source applies, and in each the full
result is determined. -/
lemma initCometD_shape (cfg : Config) (env : Env) (st : ModuleState) (fresh : Nat) :
    (truthy cfg.context = false ∧
      initCometD cfg env st fresh =
        ⟨.rejected (.error "CometD init requires an LWC context."), st, []⟩) ∨
    (truthy cfg.context = true ∧ truthy cfg.channel = false ∧
      initCometD cfg env st fresh =
        ⟨.rejected (.error "CometD init requires a channel."), st, []⟩) ∨
    (truthy cfg.context = true ∧ truthy cfg.channel = true ∧
      ((∃ e, env.scriptLoad = .error e ∧
          initCometD cfg env st fresh =
            ⟨.rejected (.external e), afterLoadState st fresh, preEvents st fresh⟩) ∨
       (env.scriptLoad = .ok () ∧
        ((∃ e, env.contextFetch = .error e ∧
            initCometD cfg env st fresh =
              ⟨.rejected (.external e), afterLoadState st fresh, preEvents st fresh⟩) ∨
         (∃ ctx, env.contextFetch = .ok ctx ∧
           ((env.libraryPresent = false ∧
              initCometD cfg env st fresh =
                ⟨.rejected (.error "CometD library not found on window."),
                 afterLoadState st fresh, preEvents st fresh⟩) ∨
            (env.libraryPresent = true ∧ sessionTruthy ctx = false ∧
              initCometD cfg env st fresh =
                ⟨.rejected (.error "CometD init could not resolve session id."),
                 afterLoadState st fresh, preEvents st fresh⟩) ∨
            (env.libraryPresent = true ∧ sessionTruthy ctx = true ∧
             env.handshakeStatus.isSuccessful = false ∧
              initCometD cfg env st fresh =
                ⟨.rejected (.status env.handshakeStatus),
                 afterLoadState st fresh, preEvents st fresh ++ coreEvents cfg env ctx⟩) ∨
            (env.libraryPresent = true ∧ sessionTruthy ctx = true ∧
             env.handshakeStatus.isSuccessful = true ∧
              initCometD cfg env st fresh =
                ⟨.resolved (handleRecord fresh),
                 afterLoadState st fresh,
                 preEvents st fresh ++ coreEvents cfg env ctx
                   ++ [Event.subscribeCall cfg.channel (handlerOf cfg.onMessage)]⟩))))))) := by
  by_cases h1 : truthy cfg.context = false
  · exact Or.inl ⟨h1, by simp [initCometD, h1]⟩
  rw [Bool.not_eq_false] at h1
  by_cases h2 : truthy cfg.channel = false
  · exact Or.inr (Or.inl ⟨h1, h2, by simp [initCometD, h1, h2]⟩)
  rw [Bool.not_eq_false] at h2
  refine Or.inr (Or.inr ⟨h1, h2, ?_⟩)
  cases hS : env.scriptLoad with
  | error e => exact Or.inl ⟨e, rfl, by simp [initCometD, h1, h2, hS]⟩
  | ok u =>
    cases u
    refine Or.inr ⟨rfl, ?_⟩
    cases hF : env.contextFetch with
    | error e => exact Or.inl ⟨e, rfl, by simp [initCometD, h1, h2, hS, hF]⟩
    | ok ctx =>
      refine Or.inr ⟨ctx, rfl, ?_⟩
      by_cases hL : env.libraryPresent = false
      · exact Or.inl ⟨hL, by simp [initCometD, h1, h2, hS, hF, hL]⟩
      rw [Bool.not_eq_false] at hL
      by_cases hT : sessionTruthy ctx = false
      · exact Or.inr (Or.inl ⟨hL, hT, by simp [initCometD, h1, h2, hS, hF, hL, hT]⟩)
      rw [Bool.not_eq_false] at hT
      by_cases hH : env.handshakeStatus.isSuccessful = false
      · exact Or.inr (Or.inr (Or.inl ⟨hL, hT, hH,
          by simp [initCometD, h1, h2, hS, hF, hL, hT, hH]⟩))
      rw [Bool.not_eq_false] at hH
      exact Or.inr (Or.inr (Or.inr ⟨hL, hT, hH,
        by simp [initCometD, h1, h2, hS, hF, hL, hT, hH]⟩))

/-- A run that resolves must have taken the last branch: the record is the
source's object literal and the trace ends with the single subscription. -/
lemma resolved_run (cfg : Config) (env : Env) (st : ModuleState) (fresh : Nat)
    (r : List (String × HandleField))
    (h : (initCometD cfg env st fresh).outcome = .resolved r) :
    r = handleRecord fresh ∧
    ∃ ctx, env.contextFetch = .ok ctx ∧
      (initCometD cfg env st fresh).trace =
        preEvents st fresh ++ coreEvents cfg env ctx
          ++ [Event.subscribeCall cfg.channel (handlerOf cfg.onMessage)] := by
  rcases initCometD_shape cfg env st fresh with ⟨_, hr⟩ | ⟨_, _, hr⟩ | ⟨_, _, hc⟩
  · rw [hr] at h; simp at h
  · rw [hr] at h; simp at h
  · rcases hc with ⟨e, _, hr⟩ | ⟨_, hc⟩
    · rw [hr] at h; simp at h
    · rcases hc with ⟨e, _, hr⟩ | ⟨ctx, hctx, hc⟩
      · rw [hr] at h; simp at h
      · rcases hc with ⟨_, hr⟩ | ⟨_, _, hr⟩ | ⟨_, _, _, hr⟩ | ⟨_, _, _, hr⟩
        · rw [hr] at h; simp at h
        · rw [hr] at h; simp at h
        · rw [hr] at h; simp at h
        · rw [hr] at h
          have hrec : handleRecord fresh = r := by simpa using h
          exact ⟨hrec.symm, ctx, hctx, by rw [hr]⟩

/-- C1 (counterexample): on a concrete successful run the resolved record's
property names differ from the spec's `{connection, …}` and its only method
is `disconnect`, not the pair `unsubscribe`/`disconnect`. -/
theorem initCometD_handle_differs_from_spec :
    (initCometD sampleCfg sampleEnv none 0).outcome = .resolved (handleRecord 0) ∧
    recordProps (handleRecord 0) ≠ specHandleProps ∧
    recordMethods (handleRecord 0) ≠ specHandleMethods := by
  refine ⟨by decide, by decide, by decide⟩

/-- C1 (amended): every resolved value of `initCometD` is the record with
properties `{cometd, subscription, disconnect}`, of which exactly
`disconnect` is a method. -/
theorem initCometD_resolved_record_shape :
    ∀ (cfg : Config) (env : Env) (st : ModuleState) (fresh : Nat)
      (r : List (String × HandleField)),
    (initCometD cfg env st fresh).outcome = .resolved r →
    recordProps r = ["cometd", "subscription", "disconnect"] ∧
    recordMethods r = ["disconnect"] := by
  intro cfg env st fresh r h
  obtain ⟨hr, -⟩ := resolved_run cfg env st fresh r h
  subst hr
  exact ⟨rfl, rfl⟩

/-- Witness for C1's amended theorem at a concrete resolving run. -/
theorem initCometD_resolved_record_shape_witness :
    recordProps (handleRecord 0) = ["cometd", "subscription", "disconnect"] ∧
    recordMethods (handleRecord 0) = ["disconnect"] :=
  initCometD_resolved_record_shape sampleCfg sampleEnv none 0 (handleRecord 0) (by decide)

/-- C2: a falsy `context` rejects with the LWC-context error and a truthy
`context` with a falsy `channel` rejects with the channel error; in both
cases the module state is untouched and the call trace is empty, so neither
`loadScript` nor `getContext` is invoked. -/
theorem initCometD_validation :
    ∀ (cfg : Config) (env : Env) (st : ModuleState) (fresh : Nat),
    (truthy cfg.context = false →
      initCometD cfg env st fresh =
        ⟨.rejected (.error "CometD init requires an LWC context."), st, []⟩) ∧
    (truthy cfg.context = true → truthy cfg.channel = false →
      initCometD cfg env st fresh =
        ⟨.rejected (.error "CometD init requires a channel."), st, []⟩) := by
  intro cfg env st fresh
  constructor
  · intro h; simp [initCometD, h]
  · intro h1 h2; simp [initCometD, h1, h2]

/-- Witness for C2 at a missing context and at an empty channel string. -/
theorem initCometD_validation_witness :
    (initCometD { sampleCfg with context := .undefined } sampleEnv none 0 =
      ⟨.rejected (.error "CometD init requires an LWC context."), none, []⟩) ∧
    (initCometD { sampleCfg with channel := .str "" } sampleEnv none 0 =
      ⟨.rejected (.error "CometD init requires a channel."), none, []⟩) :=
  ⟨(initCometD_validation { sampleCfg with context := .undefined } sampleEnv none 0).1
      (by decide),
   (initCometD_validation { sampleCfg with channel := .str "" } sampleEnv none 0).2
      (by decide) (by decide)⟩

/-- C3: the `disconnect` method of every resolved handle never lets an
exception escape, whatever the client does: the guarded `unsubscribe` is
attempted first, any exception it raises is swallowed, `disconnect(true)` is
attempted afterwards, and its exception is swallowed too. -/
theorem disconnect_never_throws :
    ∀ (cfg : Config) (env : Env) (st : ModuleState) (fresh : Nat)
      (r : List (String × HandleField)),
    (initCometD cfg env st fresh).outcome = .resolved r →
    ∃ s, ("disconnect", HandleField.closure (some s)) ∈ r ∧
      ∀ b : ClientBehavior,
        (runDisconnect (some s) b).1 = Except.ok () ∧
        (runDisconnect (some s) b).2 =
          [DiscEvent.unsubscribeCall s, DiscEvent.disconnectCall true] := by
  intro cfg env st fresh r h
  obtain ⟨hr, -⟩ := resolved_run cfg env st fresh r h
  subst hr
  refine ⟨fresh + 2, by simp [handleRecord], ?_⟩
  intro b
  obtain ⟨u, d⟩ := b
  cases u <;> cases d <;> exact ⟨rfl, rfl⟩

/-- Witness for C3 on a concrete resolving run, against a client whose
`unsubscribe` and `disconnect` both throw. -/
theorem disconnect_never_throws_witness :
    ∃ s, ("disconnect", HandleField.closure (some s)) ∈ handleRecord 0 ∧
      (runDisconnect (some s) ⟨true, true⟩).1 = Except.ok () ∧
      (runDisconnect (some s) ⟨true, true⟩).2 =
        [DiscEvent.unsubscribeCall s, DiscEvent.disconnectCall true] := by
  obtain ⟨s, hmem, hb⟩ :=
    disconnect_never_throws sampleCfg sampleEnv none 0 (handleRecord 0) (by decide)
  exact ⟨s, hmem, hb ⟨true, true⟩⟩

/-- C4: every resolving run constructs exactly one CometD instance, performs
exactly one handshake, and makes exactly one `subscribe` call, whose channel
argument is exactly the `channel` of the configuration record. -/
theorem initCometD_single_subscription :
    ∀ (cfg : Config) (env : Env) (st : ModuleState) (fresh : Nat)
      (r : List (String × HandleField)),
    (initCometD cfg env st fresh).outcome = .resolved r →
    ((initCometD cfg env st fresh).trace.filter Event.isNewCometD).length = 1 ∧
    ((initCometD cfg env st fresh).trace.filter Event.isHandshake).length = 1 ∧
    (initCometD cfg env st fresh).trace.filter Event.isSubscribe =
      [Event.subscribeCall cfg.channel (handlerOf cfg.onMessage)] := by
  intro cfg env st fresh r h
  obtain ⟨-, ctx, -, htr⟩ := resolved_run cfg env st fresh r h
  rw [htr]
  cases st <;>
    simp [preEvents, loadCometd, coreEvents, Event.isNewCometD, Event.isHandshake,
          Event.isSubscribe, List.filter_append]

/-- Witness for C4 on a concrete resolving run. -/
theorem initCometD_single_subscription_witness :
    ((initCometD sampleCfg sampleEnv none 0).trace.filter Event.isNewCometD).length = 1 ∧
    ((initCometD sampleCfg sampleEnv none 0).trace.filter Event.isHandshake).length = 1 ∧
    (initCometD sampleCfg sampleEnv none 0).trace.filter Event.isSubscribe =
      [Event.subscribeCall sampleCfg.channel (handlerOf sampleCfg.onMessage)] :=
  initCometD_single_subscription sampleCfg sampleEnv none 0 (handleRecord 0) (by decide)

/-- C5 (counterexample): a call to `initCometD` can mutate state that
outlives the call — starting from the empty module state, a valid call
stores the script-load promise in `scriptPromise`. -/
theorem scriptPromise_state_mutation :
    (initCometD sampleCfg sampleEnv none 0).state ≠ none := by decide

/-- C5 (amended): the module-level state is exactly the cached `scriptPromise`:
a call either leaves the state unchanged or — only when the cache was still
empty — fills it with the freshly created load promise; a stored promise is
never replaced. -/
theorem scriptPromise_monotone :
    ∀ (cfg : Config) (env : Env) (st : ModuleState) (fresh : Nat),
    (initCometD cfg env st fresh).state = st ∨
    (st = none ∧ (initCometD cfg env st fresh).state = some fresh) := by
  intro cfg env st fresh
  rcases initCometD_shape cfg env st fresh with ⟨_, hr⟩ | ⟨_, _, hr⟩ | ⟨_, _, hc⟩
  · rw [hr]; exact Or.inl rfl
  · rw [hr]; exact Or.inl rfl
  · have hst : (initCometD cfg env st fresh).state = afterLoadState st fresh := by
      rcases hc with ⟨e, _, hr⟩ | ⟨_, hc⟩
      · rw [hr]
      · rcases hc with ⟨e, _, hr⟩ | ⟨ctx, _, hc⟩
        · rw [hr]
        · rcases hc with ⟨_, hr⟩ | ⟨_, _, hr⟩ | ⟨_, _, _, hr⟩ | ⟨_, _, _, hr⟩ <;> rw [hr]
    rw [hst]
    cases st with
    | none => exact Or.inr ⟨rfl, rfl⟩
    | some p => exact Or.inl rfl

/-- C6: after a passed validation, a successful script load and context
fetch and a present library, a context without a truthy `sessionId` rejects
with the session-id error before any CometD instance is constructed; with a
truthy `sessionId` the instance is configured with the `Authorization`
header `'OAuth ' + sessionId` and the endpoint
`protocol + '//' + hostname + '/cometd/' + apiVersion + '/'`, where a missing
`apiVersion` defaults to `'65.0'`. -/
theorem initCometD_context_fetch :
    ∀ (cfg : Config) (env : Env) (st : ModuleState) (fresh : Nat) (ctx : Option ServerCtx),
    truthy cfg.context = true → truthy cfg.channel = true →
    env.scriptLoad = .ok () → env.contextFetch = .ok ctx → env.libraryPresent = true →
    ((sessionTruthy ctx = false →
       (initCometD cfg env st fresh).outcome =
         .rejected (.error "CometD init could not resolve session id.") ∧
       (initCometD cfg env st fresh).trace.filter Event.isNewCometD = []) ∧
     (sessionTruthy ctx = true →
       Event.configureCall (configOf cfg env ctx) ∈ (initCometD cfg env st fresh).trace ∧
       (configOf cfg env ctx).authorizationHeader =
         "OAuth " ++ (sessionIdOf ctx).getD "" ∧
       (configOf cfg env ctx).url =
         env.protocol ++ "//" ++ env.hostname ++ "/cometd/" ++ apiVersionOf ctx ++ "/" ∧
       apiVersionOr none = "65.0")) := by
  intro cfg env st fresh ctx h1 h2 hS hF hL
  constructor
  · intro hT
    have he : initCometD cfg env st fresh =
        ⟨.rejected (.error "CometD init could not resolve session id."),
         afterLoadState st fresh, preEvents st fresh⟩ := by
      simp [initCometD, h1, h2, hS, hF, hL, hT]
    rw [he]
    refine ⟨rfl, ?_⟩
    cases st <;> simp [preEvents, loadCometd, Event.isNewCometD]
  · intro hT
    by_cases hH : env.handshakeStatus.isSuccessful = false
    · have he : initCometD cfg env st fresh =
          ⟨.rejected (.status env.handshakeStatus),
           afterLoadState st fresh, preEvents st fresh ++ coreEvents cfg env ctx⟩ := by
        simp [initCometD, h1, h2, hS, hF, hL, hT, hH]
      rw [he]
      exact ⟨by simp [coreEvents], rfl, rfl, rfl⟩
    · rw [Bool.not_eq_false] at hH
      have he : initCometD cfg env st fresh =
          ⟨.resolved (handleRecord fresh),
           afterLoadState st fresh,
           preEvents st fresh ++ coreEvents cfg env ctx
             ++ [Event.subscribeCall cfg.channel (handlerOf cfg.onMessage)]⟩ := by
        simp [initCometD, h1, h2, hS, hF, hL, hT, hH]
      rw [he]
      exact ⟨by simp [coreEvents], rfl, rfl, rfl⟩

/-- Witness for C6 at a concrete run whose fetched context carries a session
id and an api version. -/
theorem initCometD_context_fetch_witness :
    Event.configureCall (configOf sampleCfg sampleEnv sampleCtx) ∈
      (initCometD sampleCfg sampleEnv none 0).trace ∧
    (configOf sampleCfg sampleEnv sampleCtx).authorizationHeader =
      "OAuth " ++ (sessionIdOf sampleCtx).getD "" ∧
    (configOf sampleCfg sampleEnv sampleCtx).url =
      sampleEnv.protocol ++ "//" ++ sampleEnv.hostname ++ "/cometd/"
        ++ apiVersionOf sampleCtx ++ "/" ∧
    apiVersionOr none = "65.0" :=
  (initCometD_context_fetch sampleCfg sampleEnv none 0 sampleCtx
      (by decide) (by decide) rfl rfl rfl).2 (by decide)

/-- C8: when the handshake was performed and its callback received a status
that is nullish or not successful, the returned promise rejects with exactly
that status value and `cometd.subscribe` is never called. -/
theorem handshake_failure_rejects :
    ∀ (cfg : Config) (env : Env) (st : ModuleState) (fresh : Nat),
    Event.handshakeCall ∈ (initCometD cfg env st fresh).trace →
    env.handshakeStatus.isSuccessful = false →
    (initCometD cfg env st fresh).outcome = .rejected (.status env.handshakeStatus) ∧
    (initCometD cfg env st fresh).trace.filter Event.isSubscribe = [] := by
  intro cfg env st fresh hmem hH
  rcases initCometD_shape cfg env st fresh with ⟨_, hr⟩ | ⟨_, _, hr⟩ | ⟨_, _, hc⟩
  · rw [hr] at hmem; simp at hmem
  · rw [hr] at hmem; simp at hmem
  · rcases hc with ⟨e, _, hr⟩ | ⟨_, hc⟩
    · rw [hr] at hmem; cases st <;> simp [preEvents, loadCometd] at hmem
    · rcases hc with ⟨e, _, hr⟩ | ⟨ctx, _, hc⟩
      · rw [hr] at hmem; cases st <;> simp [preEvents, loadCometd] at hmem
      · rcases hc with ⟨_, hr⟩ | ⟨_, _, hr⟩ | ⟨_, _, _, hr⟩ | ⟨_, _, hH8, hr⟩
        · rw [hr] at hmem; cases st <;> simp [preEvents, loadCometd] at hmem
        · rw [hr] at hmem; cases st <;> simp [preEvents, loadCometd] at hmem
        · rw [hr]
          refine ⟨rfl, ?_⟩
          cases st <;>
            simp [preEvents, loadCometd, coreEvents, Event.isSubscribe, List.filter_append]
        · rw [hH8] at hH; simp at hH

/-- Witness for C8 at a concrete run whose handshake callback receives a
nullish status. -/
theorem handshake_failure_rejects_witness :
    (initCometD sampleCfg failedHandshakeEnv none 0).outcome =
      .rejected (.status Status.nullish) ∧
    (initCometD sampleCfg failedHandshakeEnv none 0).trace.filter Event.isSubscribe = [] :=
  handshake_failure_rejects sampleCfg failedHandshakeEnv none 0 (by decide) rfl

/-- C9: when `onMessage` is not a function the no-op handler is substituted;
the handler is a function value in every case, and any `subscribe` call a run
makes passes exactly this handler. -/
theorem onMessage_noop_substitution :
    ∀ (cfg : Config) (env : Env) (st : ModuleState) (fresh : Nat),
    (isFunction cfg.onMessage = false → handlerOf cfg.onMessage = Handler.noop) ∧
    (handlerOf cfg.onMessage).isFunctionValue = true ∧
    ((initCometD cfg env st fresh).trace.filter Event.isSubscribe = [] ∨
     (initCometD cfg env st fresh).trace.filter Event.isSubscribe =
       [Event.subscribeCall cfg.channel (handlerOf cfg.onMessage)]) := by
  intro cfg env st fresh
  refine ⟨fun h => by simp [handlerOf, h], ?_, ?_⟩
  · by_cases h : isFunction cfg.onMessage <;>
      simp [handlerOf, h, Handler.isFunctionValue]
  · rcases initCometD_shape cfg env st fresh with ⟨_, hr⟩ | ⟨_, _, hr⟩ | ⟨_, _, hc⟩
    · rw [hr]; exact Or.inl rfl
    · rw [hr]; exact Or.inl rfl
    · have hpre : (preEvents st fresh).filter Event.isSubscribe = [] := by
        cases st <;> simp [preEvents, loadCometd, Event.isSubscribe]
      rcases hc with ⟨e, _, hr⟩ | ⟨_, hc⟩
      · rw [hr]; exact Or.inl hpre
      · rcases hc with ⟨e, _, hr⟩ | ⟨ctx, _, hc⟩
        · rw [hr]; exact Or.inl hpre
        · rcases hc with ⟨_, hr⟩ | ⟨_, _, hr⟩ | ⟨_, _, _, hr⟩ | ⟨_, _, _, hr⟩
          · rw [hr]; exact Or.inl hpre
          · rw [hr]; exact Or.inl hpre
          · rw [hr]
            refine Or.inl ?_
            cases st <;>
              simp [preEvents, loadCometd, coreEvents, Event.isSubscribe,
                    List.filter_append]
          · rw [hr]
            refine Or.inr ?_
            cases st <;>
              simp [preEvents, loadCometd, coreEvents, Event.isSubscribe,
                    List.filter_append]

/-- Witness for C9 at a configuration whose `onMessage` is a string. -/
theorem onMessage_noop_substitution_witness :
    handlerOf sampleCfgNoHandler.onMessage = Handler.noop ∧
    (handlerOf sampleCfgNoHandler.onMessage).isFunctionValue = true ∧
    ((initCometD sampleCfgNoHandler sampleEnv none 0).trace.filter Event.isSubscribe = [] ∨
     (initCometD sampleCfgNoHandler sampleEnv none 0).trace.filter Event.isSubscribe =
       [Event.subscribeCall sampleCfgNoHandler.channel
          (handlerOf sampleCfgNoHandler.onMessage)]) :=
  ⟨(onMessage_noop_substitution sampleCfgNoHandler sampleEnv none 0).1 (by decide),
   (onMessage_noop_substitution sampleCfgNoHandler sampleEnv none 0).2.1,
   (onMessage_noop_substitution sampleCfgNoHandler sampleEnv none 0).2.2⟩

/-- C10: on every run that reaches the client configuration, the instance is
configured with the destructured `logLevel` and then has `websocketEnabled`
assigned the destructured value, both strictly before the handshake; the
destructuring defaults are `'debug'` and `false` exactly when the fields are
omitted (`undefined`), and otherwise the fields pass through unchanged. -/
theorem configure_applies_options :
    ∀ (cfg : Config) (env : Env) (st : ModuleState) (fresh : Nat) (ctx : Option ServerCtx),
    truthy cfg.context = true → truthy cfg.channel = true →
    env.scriptLoad = .ok () → env.contextFetch = .ok ctx →
    env.libraryPresent = true → sessionTruthy ctx = true →
    (∃ pre post,
      (initCometD cfg env st fresh).trace =
        pre ++ [Event.configureCall (configOf cfg env ctx),
                Event.setWebsocketEnabled (effWebsocketEnabled cfg),
                Event.handshakeCall] ++ post) ∧
    (configOf cfg env ctx).logLevel = effLogLevel cfg ∧
    (cfg.logLevel = .undefined → effLogLevel cfg = .str "debug") ∧
    (cfg.logLevel ≠ .undefined → effLogLevel cfg = cfg.logLevel) ∧
    (cfg.websocketEnabled = .undefined → effWebsocketEnabled cfg = .bool false) ∧
    (cfg.websocketEnabled ≠ .undefined → effWebsocketEnabled cfg = cfg.websocketEnabled) := by
  intro cfg env st fresh ctx h1 h2 hS hF hL hT
  refine ⟨?_, rfl, fun h => by simp [effLogLevel, h], fun h => by simp [effLogLevel, h],
          fun h => by simp [effWebsocketEnabled, h],
          fun h => by simp [effWebsocketEnabled, h]⟩
  by_cases hH : env.handshakeStatus.isSuccessful = false
  · have he : initCometD cfg env st fresh =
        ⟨.rejected (.status env.handshakeStatus),
         afterLoadState st fresh, preEvents st fresh ++ coreEvents cfg env ctx⟩ := by
      simp [initCometD, h1, h2, hS, hF, hL, hT, hH]
    refine ⟨preEvents st fresh ++ [Event.newCometD], [], ?_⟩
    rw [he]
    simp [coreEvents]
  · rw [Bool.not_eq_false] at hH
    have he : initCometD cfg env st fresh =
        ⟨.resolved (handleRecord fresh),
         afterLoadState st fresh,
         preEvents st fresh ++ coreEvents cfg env ctx
           ++ [Event.subscribeCall cfg.channel (handlerOf cfg.onMessage)]⟩ := by
      simp [initCometD, h1, h2, hS, hF, hL, hT, hH]
    refine ⟨preEvents st fresh ++ [Event.newCometD],
            [Event.subscribeCall cfg.channel (handlerOf cfg.onMessage)], ?_⟩
    rw [he]
    simp [coreEvents]

/-- Witness for C10 at a concrete run that omits both options. -/
theorem configure_applies_options_witness :
    (∃ pre post,
      (initCometD sampleCfg sampleEnv none 0).trace =
        pre ++ [Event.configureCall (configOf sampleCfg sampleEnv sampleCtx),
                Event.setWebsocketEnabled (effWebsocketEnabled sampleCfg),
                Event.handshakeCall] ++ post) ∧
    effLogLevel sampleCfg = .str "debug" ∧
    effWebsocketEnabled sampleCfg = .bool false := by
  have h := configure_applies_options sampleCfg sampleEnv none 0 sampleCtx
    (by decide) (by decide) rfl rfl rfl (by decide)
  exact ⟨h.1, h.2.2.1 rfl, h.2.2.2.2.1 rfl⟩

/-- A call starting from a filled `scriptPromise` cache leaves it unchanged. -/
lemma initCometD_state_some (cfg : Config) (env : Env) (p fresh : Nat) :
    (initCometD cfg env (some p) fresh).state = some p := by
  rcases initCometD_shape cfg env (some p) fresh with ⟨_, hr⟩ | ⟨_, _, hr⟩ | ⟨_, _, hc⟩
  · rw [hr]
  · rw [hr]
  · rcases hc with ⟨e, _, hr⟩ | ⟨_, hc⟩
    · rw [hr]; rfl
    · rcases hc with ⟨e, _, hr⟩ | ⟨ctx, _, hc⟩
      · rw [hr]; rfl
      · rcases hc with ⟨_, hr⟩ | ⟨_, _, hr⟩ | ⟨_, _, _, hr⟩ | ⟨_, _, _, hr⟩ <;>
          · rw [hr]; rfl

/-- A call starting from a filled cache never invokes `loadScript`. -/
lemma initCometD_trace_loadScript_some (cfg : Config) (env : Env) (p fresh : Nat) :
    (initCometD cfg env (some p) fresh).trace.filter Event.isLoadScript = [] := by
  rcases initCometD_shape cfg env (some p) fresh with ⟨_, hr⟩ | ⟨_, _, hr⟩ | ⟨_, _, hc⟩
  · rw [hr]; rfl
  · rw [hr]; rfl
  · rcases hc with ⟨e, _, hr⟩ | ⟨_, hc⟩
    · rw [hr]
      simp [preEvents, loadCometd, Event.isLoadScript]
    · rcases hc with ⟨e, _, hr⟩ | ⟨ctx, _, hc⟩
      · rw [hr]
        simp [preEvents, loadCometd, Event.isLoadScript]
      · rcases hc with ⟨_, hr⟩ | ⟨_, _, hr⟩ | ⟨_, _, _, hr⟩ | ⟨_, _, _, hr⟩ <;>
          · rw [hr]
            simp [preEvents, loadCometd, coreEvents, Event.isLoadScript, List.filter_append]

/-- A call starting from the empty cache invokes `loadScript` at most once,
and not at all when it leaves the cache empty. -/
lemma initCometD_trace_loadScript_none (cfg : Config) (env : Env) (fresh : Nat) :
    ((initCometD cfg env none fresh).trace.filter Event.isLoadScript).length ≤ 1 ∧
    ((initCometD cfg env none fresh).state = none →
      (initCometD cfg env none fresh).trace.filter Event.isLoadScript = []) := by
  rcases initCometD_shape cfg env none fresh with ⟨_, hr⟩ | ⟨_, _, hr⟩ | ⟨_, _, hc⟩
  · rw [hr]; exact ⟨by simp, fun _ => rfl⟩
  · rw [hr]; exact ⟨by simp, fun _ => rfl⟩
  · have hfull : ∀ res : InitResult, res.state = afterLoadState none fresh →
        res.state = none → False := by
      intro res h1 h2
      rw [h1] at h2
      simp [afterLoadState, loadCometd] at h2
    rcases hc with ⟨e, _, hr⟩ | ⟨_, hc⟩
    · rw [hr]
      exact ⟨by simp [preEvents, loadCometd, Event.isLoadScript],
             fun h => absurd h (by simp [afterLoadState, loadCometd])⟩
    · rcases hc with ⟨e, _, hr⟩ | ⟨ctx, _, hc⟩
      · rw [hr]
        exact ⟨by simp [preEvents, loadCometd, Event.isLoadScript],
               fun h => absurd h (by simp [afterLoadState, loadCometd])⟩
      · rcases hc with ⟨_, hr⟩ | ⟨_, _, hr⟩ | ⟨_, _, _, hr⟩ | ⟨_, _, _, hr⟩ <;>
          · rw [hr]
            refine ⟨?_, fun h => absurd h (by simp [afterLoadState, loadCometd])⟩
            simp [preEvents, loadCometd, coreEvents, Event.isLoadScript, List.filter_append]

/-- From a filled cache, a whole sequence of calls keeps the cache unchanged
and never invokes `loadScript`. -/
lemma runCalls_from_some (p : Nat) :
    ∀ (calls : List (Config × Env)) (fresh : Nat),
    (runCalls (some p) fresh calls).1 = some p ∧
    (runCalls (some p) fresh calls).2.filter Event.isLoadScript = [] := by
  intro calls
  induction calls with
  | nil => intro fresh; exact ⟨rfl, rfl⟩
  | cons hd tl ih =>
    intro fresh
    obtain ⟨cfg, env⟩ := hd
    have hst := initCometD_state_some cfg env p fresh
    have htr := initCometD_trace_loadScript_some cfg env p fresh
    constructor
    · simp only [runCalls]
      rw [hst]
      exact (ih (fresh + 3)).1
    · simp only [runCalls]
      rw [List.filter_append, htr, hst, (ih (fresh + 3)).2]
      rfl

/-- From the empty cache, a whole sequence of calls invokes `loadScript` at
most once. -/
lemma runCalls_none_le :
    ∀ (calls : List (Config × Env)) (fresh : Nat),
    ((runCalls none fresh calls).2.filter Event.isLoadScript).length ≤ 1 := by
  intro calls
  induction calls with
  | nil => intro fresh; simp [runCalls]
  | cons hd tl ih =>
    intro fresh
    obtain ⟨cfg, env⟩ := hd
    simp only [runCalls]
    rw [List.filter_append, List.length_append]
    cases hst : (initCometD cfg env none fresh).state with
    | none =>
      rw [(initCometD_trace_loadScript_none cfg env fresh).2 hst]
      simpa using ih (fresh + 3)
    | some q =>
      rw [(runCalls_from_some q tl (fresh + 3)).2]
      simpa using (initCometD_trace_loadScript_none cfg env fresh).1

/-- C7: across any sequence of `initCometD` calls in one module lifetime the
host loader `loadScript` runs at most once, and once a promise is stored in
`scriptPromise`, `loadCometd` returns that same stored promise unchanged. -/
theorem loadScript_at_most_once :
    ∀ (calls : List (Config × Env)) (fresh : Nat),
    ((runCalls none fresh calls).2.filter Event.isLoadScript).length ≤ 1 ∧
    (∀ (p f : Nat), loadCometd (some p) f = (p, some p, [])) :=
  fun calls fresh => ⟨runCalls_none_le calls fresh, fun _ _ => rfl⟩

end SfCometD
